import Mathlib

/-!
Verification development for the VOC dashboard (`app.py`).

The dashboard is a single-file Streamlit application working over pandas
DataFrames.  We embed the data model shallowly:

* a DataFrame cell is a `Val` (`vnan` models pandas `NaN`, `vstr` a string
  cell, `vint` an integer cell);
* a row is an association list from column names to cells, a `Table` is a
  column list plus a row list;
* Python string helpers (`strip`, `replace`, `str.isdigit`, `str.upper`,
  splitting) are re-implemented structurally over `List Char` so that all
  definitions evaluate by kernel reduction.

Python-builtin subtleties that the embedding keeps:
* `str.isdigit` accepts some non-ASCII digit characters (we model, besides
  the ASCII digits, the superscripts U+00B2/U+00B3/U+00B9; Python accepts
  further Unicode digits, none of which any claim touches), whereas the
  regex class `[0-9]` in `re.sub(r"[^0-9]", "", s)` is ASCII-only;
* Python `round` rounds halves to even (banker's rounding);
* `pandas.Series.sort_values(ascending=False)` computes an ascending
  argsort and reverses it, so on ties the descending result reverses the
  ascending order.  numpy's default quicksort is stable on the small-array
  insertion-sort path; we model it as stable.
-/

/-- A pandas DataFrame cell: `NaN`, a string, or an integer. -/
inductive Val where
  | vnan : Val
  | vstr (s : String) : Val
  | vint (n : Int) : Val
deriving DecidableEq

/-- One DataFrame row: an association list from column name to cell. -/
abbrev Row := List (String × Val)

/-- A DataFrame: its column names and its rows. -/
structure Table where
  cols : List String
  rows : List Row
deriving DecidableEq

/-- Cell lookup inside a row; a name missing from the row reads as `NaN`
(column-presence checks are done against `Table.cols`, as the Python code
checks `col in df.columns`). -/
def getCell (r : Row) (c : String) : Val :=
  match r.find? (fun p => p.1 == c) with
  | some p => p.2
  | none => Val.vnan

/-- Column assignment at row level (`df[c] = ...` overwrites the column if
present, appends it otherwise). -/
def setCell (r : Row) (c : String) (v : Val) : Row :=
  if r.any (fun p => p.1 == c) then
    r.map (fun p => if p.1 == c then (c, v) else p)
  else
    r ++ [(c, v)]

/-- Keep only the rows satisfying a predicate (`df[mask]`). -/
def filterRows (df : Table) (p : Row → Bool) : Table :=
  { df with rows := df.rows.filter p }

/-- ASCII digit test, which is also exactly the regex character class
`[0-9]` used by `clean_contract` via `re.sub(r"[^0-9]", "", s)`. -/
def isAsciiDigit (c : Char) : Bool :=
  48 ≤ c.toNat && c.toNat ≤ 57

/-- Model of Python `str.isdigit` on one character: ASCII digits plus the
superscript digits U+00B2 (²), U+00B3 (³), U+00B9 (¹), which Python accepts
because their `Numeric_Type` is `Digit`.  (CPython accepts further Unicode
digit characters; no claim here evaluates the model on any of those, and
every universally quantified theorem about this predicate restricts its
input to ASCII.) -/
def pyIsDigit (c : Char) : Bool :=
  isAsciiDigit c || c.toNat == 178 || c.toNat == 179 || c.toNat == 185

/-- Model of Python `str.strip` (here for the ASCII whitespace actually
occurring in the data): drop leading and trailing whitespace. -/
def stripChars (l : List Char) : List Char :=
  ((l.dropWhile Char.isWhitespace).reverse.dropWhile Char.isWhitespace).reverse

/-- Python `s.strip()`. -/
def pyStrip (s : String) : String :=
  String.mk (stripChars s.data)

/-- Digit-list to number, used for Python `int(s)` after an `isdigit`
guard. -/
def digitsVal (l : List Char) : Nat :=
  l.foldl (fun acc c => acc * 10 + (c.toNat - 48)) 0

/-- Python `s.isdigit()` followed by `int(s)`: `some` exactly when `s` is
non-empty and all ASCII digits. -/
def parseNat (l : List Char) : Option Nat :=
  if l ≠ [] ∧ l.all isAsciiDigit then some (digitsVal l) else none

/-- Python `round(v / 1000)` for a natural `v`: round half to even on the
exact quotient.  (IEEE division `v / 1000` is exact at every tie
`v % 1000 = 500`, because `(2k+1)/2` is representable, and for the
magnitudes occurring here — far below `2^43` — the float error can never
cross a rounding boundary, so this Nat-level model agrees with CPython.) -/
def pyRoundDiv1000 (v : Nat) : Nat :=
  let q := v / 1000
  let r := v % 1000
  if 500 < r then q + 1
  else if r < 500 then q
  else if q % 2 = 0 then q else q + 1

/-- `app.py` lines 42-47, `clean_contract_number(x)`:
`"" if pd.isna(x)`, else keep the `str.isdigit` characters of `str(x)` and
truncate to the first 8 when at least 8 remain.  The `Option` input models
the NaN case; cells in the loaded frame are strings (`dtype=str`). -/
def clean_contract_number (x : Option String) : String :=
  match x with
  | none => ""
  | some s0 =>
    let s := s0.data.filter pyIsDigit
    if 8 ≤ s.length then String.mk (s.take 8) else String.mk s

/-- `app.py` lines 322-326, `clean_contract(x)`:
`"" if pd.isna(x)`, else `re.sub(r"[^0-9]", "", str(x))` truncated to the
first 8 characters when at least 8 remain. -/
def clean_contract (x : Option String) : String :=
  match x with
  | none => ""
  | some s0 =>
    let s := s0.data.filter isAsciiDigit
    if 8 ≤ s.length then String.mk (s.take 8) else String.mk s

/-- `app.py` lines 49-58, `clean_monthly_fee(x)`:
`NaN` for `NaN`, else `s = str(x).replace(",", "").strip()`; `NaN` when
`s.isdigit()` fails, else `round(int(s) / 1000)`.  `none` models the
`np.nan` sentinel. -/
def clean_monthly_fee (x : Option String) : Option Nat :=
  match x with
  | none => none
  | some s0 =>
    let s := stripChars (s0.data.filter (fun c => c != ','))
    match parseNat s with
    | none => none
    | some v => some (pyRoundDiv1000 v)

/-- Result of date parsing: pandas `NaT` or a `datetime`
(year, month, day, hour, minute, second). -/
inductive PDate where
  | NaT : PDate
  | dt (y m d hh mi ss : Nat) : PDate
deriving DecidableEq

/-- A raw cell as seen by `parse_date_safe`: `NaN`, a string, or an
already-typed `datetime`/`Timestamp` value. -/
inductive RawCell where
  | nan : RawCell
  | str (s : String) : RawCell
  | dtv (y m d hh mi ss : Nat) : RawCell
deriving DecidableEq

/-- Gregorian leap-year test, as validated by `datetime`. -/
def isLeap (y : Nat) : Bool :=
  (y % 4 == 0 && y % 100 != 0) || y % 400 == 0

/-- Days in a month, as validated by the `datetime` constructor. -/
def daysInMonth (y m : Nat) : Nat :=
  if m == 2 then (if isLeap y then 29 else 28)
  else if m == 4 || m == 6 || m == 9 || m == 11 then 30 else 31

/-- Split a character list at every occurrence of a separator. -/
def splitOnChar (sep : Char) : List Char → List (List Char)
  | [] => [[]]
  | c :: cs =>
    let r := splitOnChar sep cs
    if c == sep then [] :: r
    else
      match r with
      | [] => [[c]]
      | h :: t => (c :: h) :: t

/-- One or two digit numeric field of `strptime` (the patterns `%m`, `%d`,
`%H`, `%M`, `%S` match 1-2 digits within a closed range). -/
def parse2 (lo hi : Nat) (l : List Char) : Option Nat :=
  if l.length == 1 || l.length == 2 then
    match parseNat l with
    | some v => if lo ≤ v ∧ v ≤ hi then some v else none
    | none => none
  else none

/-- The `%Y` pattern of `strptime`: exactly four digits. -/
def parseYear (l : List Char) : Option Nat :=
  if l.length == 4 then parseNat l else none

/-- `datetime.strptime` against `"%Y<sep>%m<sep>%d"`: three fields, with
the day validated against the month (as the `datetime` constructor does —
an out-of-range day raises, which the caller's `except` turns into trying
the next format, modelled as `none`). -/
def strptimeDate (l : List Char) (sep : Char) : Option (Nat × Nat × Nat) :=
  match splitOnChar sep l with
  | [ys, ms, ds] =>
    match parseYear ys, parse2 1 12 ms, parse2 1 31 ds with
    | some y, some m, some d =>
      if d ≤ daysInMonth y m then some (y, m, d) else none
    | _, _, _ => none
  | _ => none

/-- `datetime.strptime` against `"%H:%M"` (`withSec = false`) or
`"%H:%M:%S"` (`withSec = true`).  `%S` up to 61 followed by `datetime`
validation nets to a 0-59 range. -/
def strptimeTime (l : List Char) (withSec : Bool) : Option (Nat × Nat × Nat) :=
  match splitOnChar ':' l with
  | [hs, ms] =>
    if withSec then none
    else
      match parse2 0 23 hs, parse2 0 59 ms with
      | some h, some mi => some (h, mi, 0)
      | _, _ => none
  | [hs, ms, ss] =>
    if withSec then
      match parse2 0 23 hs, parse2 0 59 ms, parse2 0 59 ss with
      | some h, some mi, some sec => some (h, mi, sec)
      | _, _, _ => none
    else none
  | _ => none

/-- One `strptime` attempt for a format of the list in `app.py` lines
69-73: a date separator and a time shape (`0` = date only, `2` = `%H:%M`,
`3` = `%H:%M:%S`). -/
def applyFmt (l : List Char) (sep : Char) (t : Nat) : Option PDate :=
  if t == 0 then
    match strptimeDate l sep with
    | some (y, m, d) => some (.dt y m d 0 0 0)
    | none => none
  else
    match splitOnChar ' ' l with
    | [dl, tl] =>
      match strptimeDate dl sep, strptimeTime tl (t == 3) with
      | some (y, m, d), some (h, mi, ss) => some (.dt y m d h mi ss)
      | _, _ => none
    | _ => none

/-- The format list of `app.py` lines 69-73, in source order:
`%Y-%m-%d`, `%Y/%m/%d`, `%Y.%m.%d`, then the `%H:%M` pair, then the
`%H:%M:%S` pair. -/
def strptimeFormats : List (Char × Nat) :=
  [('-', 0), ('/', 0), ('.', 0), ('-', 2), ('/', 2), ('-', 3), ('/', 3)]

/-- The `for fmt in formats` loop of `parse_date_safe`: first successful
format wins. -/
def tryFormats (l : List Char) : Option PDate :=
  strptimeFormats.findSome? (fun p => applyFmt l p.1 p.2)

/-- Model of the fallback `pd.to_datetime(s, errors="coerce")` (line 82).
It is reached only after every explicit format has failed.  pandas'
permissive parser accepts further shapes (month names, ISO timestamps with
timezone, ...) that no claim exercises; on the strings any theorem below
evaluates it on (such as `"not-a-date"`) pandas returns `NaT`, which is
what this model returns. -/
def pd_to_datetime_coerce (_l : List Char) : PDate :=
  PDate.NaT

/-- `app.py` lines 60-84, `parse_date_safe(x)`: `NaT` on `NaN`, typed
date/time values returned unchanged, otherwise `str(x).strip()` is tried
against the fixed format list (first match wins) and then against the
coercing pandas parser; every failure degrades to `NaT`. -/
def parse_date_safe (x : RawCell) : PDate :=
  match x with
  | .nan => .NaT
  | .dtv y m d hh mi ss => .dt y m d hh mi ss
  | .str s =>
    let l := stripChars s.data
    match tryFormats l with
    | some r => r
    | none => pd_to_datetime_coerce l

/-- `app.py` lines 275-307, `filter_by_role(df)`.  The ambient session
state (`login_type`, `login_user`, `login_branch`) is passed explicitly;
the Python body works on `df.copy()` and only ever selects rows, so the
function is pure and the embedding is a plain function on tables. -/
def filter_by_role (df : Table) (login_type login_user login_branch : String) : Table :=
  if login_type = "admin" then df
  else if login_type = "public" then df
  else if login_type = "branch_admin" then
    if "관리지사" ∈ df.cols then
      filterRows df (fun r => getCell r "관리지사" == Val.vstr login_branch)
    else df
  else if login_type = "user" then
    if "담당자" ∈ df.cols then
      filterRows df (fun r => getCell r "담당자" == Val.vstr login_user)
    else if "구역담당자" ∈ df.cols then
      filterRows df (fun r => getCell r "구역담당자" == Val.vstr login_user)
    else df
  else df

/-- The scenario table of claim C1: one `"North"` row and one `"South"`
row. -/
def exTableC1 : Table :=
  ⟨["관리지사"],
   [[("관리지사", Val.vstr "North")], [("관리지사", Val.vstr "South")]]⟩

/-- pandas `Series.isin(sel)` on one cell: a string cell is tested for
membership, `NaN` (and any non-string cell) is never `in`. -/
def isinSel (v : Val) (sel : List String) : Bool :=
  match v with
  | Val.vstr s => sel.contains s
  | _ => false

/-- The global-filter criteria record (sidebar selections), `app.py` lines
364-379. -/
structure Criteria where
  sel_branches : List String
  sel_managers : List String
  sel_risk : List String
  sel_match : List String
  sel_voc_mid : String
  fee_min : Int
  fee_max : Int
deriving DecidableEq

/-- `app.py` lines 394-395: `if "전체" not in sel_branches: df_f =
df_f[df_f["관리지사"].isin(sel_branches)]`.  The column access is not
guarded, so a missing `관리지사` column raises `KeyError` (modelled as
`Except.error`). -/
def branchStep (df : Table) (sel : List String) : Except String Table :=
  if "전체" ∈ sel then .ok df
  else if "관리지사" ∈ df.cols then
    .ok (filterRows df (fun r => isinSel (getCell r "관리지사") sel))
  else .error "KeyError: 관리지사"

/-- `app.py` lines 397-398: the manager criterion, likewise unguarded. -/
def managerStep (df : Table) (sel : List String) : Except String Table :=
  if "전체" ∈ sel then .ok df
  else if "담당자" ∈ df.cols then
    .ok (filterRows df (fun r => isinSel (getCell r "담당자") sel))
  else .error "KeyError: 담당자"

/-- `app.py` lines 400-402: the risk-tier criterion.  An empty selection is
falsy (`if sel_risk:`) and skips filtering; the column access is guarded by
a presence check, so the step is total. -/
def riskStep (df : Table) (sel : List String) : Table :=
  if sel ≠ [] then
    if "리스크등급" ∈ df.cols then
      filterRows df (fun r => isinSel (getCell r "리스크등급") sel)
    else df
  else df

/-- `app.py` lines 404-406: the match-flag criterion, guarded like the
risk criterion. -/
def matchStep (df : Table) (sel : List String) : Table :=
  if sel ≠ [] then
    if "체미매칭" ∈ df.cols then
      filterRows df (fun r => isinSel (getCell r "체미매칭") sel)
    else df
  else df

/-- `app.py` lines 408-410: the VOC-category criterion (the walrus `if`
tests truthiness of the selectbox string; filtering happens only for a
non-wildcard value with the column present). -/
def vocStep (df : Table) (voc : String) : Table :=
  if voc ≠ "" then
    if voc ≠ "전체" ∧ "VOC유형중" ∈ df.cols then
      filterRows df (fun r => getCell r "VOC유형중" == Val.vstr voc)
    else df
  else df

/-- `app.py` line 412: the fee-range filter
`df_f[(df_f["월정료_천원"] >= fee_min) & (df_f["월정료_천원"] <= fee_max)]`,
unguarded: a missing column is a `KeyError`, a string cell makes the
comparison raise `TypeError`; a `NaN` cell compares `False` and is
dropped. -/
def feeStep (df : Table) (lo hi : Int) : Except String Table :=
  if "월정료_천원" ∈ df.cols then
    if df.rows.any (fun r =>
        match getCell r "월정료_천원" with
        | Val.vstr _ => true
        | _ => false) then
      .error "TypeError: 월정료_천원"
    else
      .ok (filterRows df (fun r =>
        match getCell r "월정료_천원" with
        | Val.vint n => decide (lo ≤ n) && decide (n ≤ hi)
        | _ => false))
  else .error "KeyError: 월정료_천원"

/-- `app.py` lines 392-412, the whole filter-application block producing
`df_f` from `df_view` and the sidebar criteria, in source order. -/
def df_f_block (df : Table) (c : Criteria) : Except String Table := do
  let t1 ← branchStep df c.sel_branches
  let t2 ← managerStep t1 c.sel_managers
  let t3 := riskStep t2 c.sel_risk
  let t4 := matchStep t3 c.sel_match
  let t5 := vocStep t4 c.sel_voc_mid
  feeStep t5 c.fee_min c.fee_max

/-- Counterexample table for claim C2: it has only the fee column, no
branch column. -/
def exTableC2 : Table :=
  ⟨["월정료_천원"], [[("월정료_천원", Val.vint 10)]]⟩

/-- Counterexample criteria for claim C2: a non-wildcard branch selection,
everything else wildcard/default. -/
def exCritC2 : Criteria :=
  ⟨["North"], ["전체"], ["HIGH", "MEDIUM", "LOW"], ["X", "O"], "전체", 0, 500⟩

/-- Counterexample table for claim C5: one row whose risk value is not one
of the three tiers. -/
def exTableC5 : Table :=
  ⟨["리스크등급"], [[("리스크등급", Val.vstr "중간")]]⟩

/-- Witness table for claim C5: every row's risk value is one of the three
tiers. -/
def exTableC5w : Table :=
  ⟨["리스크등급"], [[("리스크등급", Val.vstr "HIGH")]]⟩

/-- Python `str(x)` of a cell as used on the `매칭` column: `str(nan)` is
the string `"nan"`. -/
def pyStrVal : Val → String
  | Val.vnan => "nan"
  | Val.vstr s => s
  | Val.vint n => toString n

/-- Python `str.upper` on one character, for the ASCII range actually
compared here (non-ASCII characters, e.g. the Korean data, are unchanged by
`upper` in the cases relevant to the `== "X"` comparison). -/
def pyUpperChar (c : Char) : Char :=
  if 97 ≤ c.toNat ∧ c.toNat ≤ 122 then Char.ofNat (c.toNat - 32) else c

/-- Python `s.upper()`. -/
def pyUpper (s : String) : String :=
  String.mk (s.data.map pyUpperChar)

/-- `True` when a cell is not an integer cell (the loaded frame is read
with `dtype=str`, so the `매칭` column holds only strings or `NaN`). -/
def notIntCell : Val → Bool
  | Val.vint _ => false
  | _ => true

/-- Column-name list after an assignment `df[c] = ...`. -/
def addCol (cols : List String) (c : String) : List String :=
  if c ∈ cols then cols else cols ++ [c]

/-- `app.py` lines 100-104, the `매칭여부` derivation of `load_data`:
`df["매칭여부"] = df["매칭"].apply(lambda x: "X" if str(x).upper() == "X"
else "O")` when the `매칭` column exists, the constant `"O"` otherwise. -/
def deriveMatch (df : Table) : Table :=
  if "매칭" ∈ df.cols then
    ⟨addCol df.cols "매칭여부",
     df.rows.map (fun r => setCell r "매칭여부"
       (Val.vstr (if pyUpper (pyStrVal (getCell r "매칭")) = "X" then "X" else "O")))⟩
  else
    ⟨addCol df.cols "매칭여부",
     df.rows.map (fun r => setCell r "매칭여부" (Val.vstr "O"))⟩

/-- Counterexample table for claim C6: one row whose `매칭` value is the
lowercase string `"x"`. -/
def exTableC6 : Table :=
  ⟨["매칭"], [[("매칭", Val.vstr "x")]]⟩

/-- Witness table for claim C6: matched, unmatched-uppercase and
unmatched-lowercase rows. -/
def exTableC6w : Table :=
  ⟨["매칭"], [[("매칭", Val.vstr "O")], [("매칭", Val.vstr "x")], [("매칭", Val.vnan)]]⟩

/-- `app.py` lines 545-562, the activity-log registration handler.  The
selected contract, entered content/note, acting user and timestamp are the
handler's inputs; `Except.error` models the `st.error` branches, in which
`save_logs` is never called and the stored rows are untouched; the `ok`
branch is `pd.concat([logs_df, pd.DataFrame([new_row])])` followed by
`save_logs`: the prior rows followed by exactly one new row. -/
def register_activity (logs : List Row)
    (sel_contract activity note login_user now : String) : Except String (List Row) :=
  if sel_contract = "선택하세요" then Except.error "계약번호를 선택해주세요."
  else if pyStrip activity = "" then Except.error "활동 내용을 입력해주세요."
  else Except.ok (logs ++
    [[("계약번호", Val.vstr sel_contract), ("활동내용", Val.vstr activity),
      ("등록자", Val.vstr login_user), ("등록일시", Val.vstr now),
      ("비고", Val.vstr note)]])

/-- Strict order in which `top_fail` emits its entries: larger
unique-contract count first; on equal counts, larger manager name first
(Python string order is code-point lexicographic, compared here on the
character lists).  This is the order produced by pandas
`sort_values(ascending=False)` on the name-ascending groupby result: pandas
reverses an ascending argsort, so ties — kept in ascending name order by
the stable small-array sort — come out in descending name order.  As the
order is a strict total order on the distinct group keys, sorting the
groups by it directly is order-independent and faithful. -/
def c9lt (a b : String × Nat) : Bool :=
  decide (b.2 < a.2) || (decide (a.2 = b.2) && decide (b.1.data < a.1.data))

/-- Insert into a list sorted by `c9lt`. -/
def insertSorted (x : String × Nat) : List (String × Nat) → List (String × Nat)
  | [] => [x]
  | y :: ys => if c9lt x y then x :: y :: ys else y :: insertSorted x ys

/-- Insertion sort by `c9lt`. -/
def isortDesc : List (String × Nat) → List (String × Nat)
  | [] => []
  | x :: xs => insertSorted x (isortDesc xs)

/-- pandas `Series.nunique()` over the `계약번호_정제` column of a row
group: the number of distinct non-NaN values. -/
def nuniqueContracts (rows : List Row) : Nat :=
  (rows.filterMap (fun r =>
    match getCell r "계약번호_정제" with
    | Val.vnan => none
    | v => some v)).dedup.length

/-- `app.py` lines 464-470, `top_fail`:
`df_f[df_f["체미매칭"]=="X"].groupby("담당자")["계약번호_정제"].nunique()
.sort_values(ascending=False).head(20)`.  Groups are keyed by the distinct
non-NaN manager values of the unmatched rows (`groupby` drops NaN keys; the
loaded frame holds string keys), ordered by `c9lt`, truncated to 20. -/
def top_fail (df : Table) : List (String × Nat) :=
  let un := df.rows.filter (fun r => getCell r "체미매칭" == Val.vstr "X")
  let keys := (un.filterMap (fun r =>
    match getCell r "담당자" with
    | Val.vstr s => some s
    | _ => none)).dedup
  let groups := keys.map (fun k =>
    (k, nuniqueContracts (un.filter (fun r => getCell r "담당자" == Val.vstr k))))
  (isortDesc groups).take 20

/-- Counterexample table for claim C9: managers `"Kim"` and `"Lee"`, each
with one unmatched contract — a tie in the counts. -/
def exTableC9 : Table :=
  ⟨["담당자", "체미매칭", "계약번호_정제"],
   [[("담당자", Val.vstr "Kim"), ("체미매칭", Val.vstr "X"),
     ("계약번호_정제", Val.vstr "00000001")],
    [("담당자", Val.vstr "Lee"), ("체미매칭", Val.vstr "X"),
     ("계약번호_정제", Val.vstr "00000002")]]⟩

-- # Theorems

/-- Claim C3 counterexample: `clean_contract_number` on the raw input
`"123"` (three digit characters, fewer than the configured width) returns
`"123"`, whose length is neither `0` nor `8`; so the output is not always
empty-or-exactly-8-digits as the claim states. -/
theorem clean_contract_number_width_cex :
    (clean_contract_number (some "123")).length ≠ 0 ∧
    (clean_contract_number (some "123")).length ≠ 8 := by
  decide

/-- Claim C3 (amended): for every raw input the cleaned contract identifier
consists only of digit characters (in the `str.isdigit` sense) and has
length at most 8: it is exactly the first 8 digit characters of the input
when the input contains at least 8 of them (on NaN it is empty), and all
digit characters found otherwise — so lengths strictly between 0 and 8 do
occur. -/
theorem clean_contract_number_width_amended (x : Option String) :
    (clean_contract_number x).length ≤ 8 ∧
    (clean_contract_number x).data.all pyIsDigit = true ∧
    (x = none → clean_contract_number x = "") ∧
    (∀ s, x = some s →
      clean_contract_number x = String.mk ((s.data.filter pyIsDigit).take 8)) := by
  match x with
  | none =>
    refine ⟨by decide, by decide, fun _ => rfl, fun s hs => by cases hs⟩
  | some s =>
    have hsub : ∀ c ∈ (s.data.filter pyIsDigit).take 8, pyIsDigit c = true := by
      intro c hc
      have hm : c ∈ s.data.filter pyIsDigit :=
        (List.take_sublist 8 _).mem hc
      exact (List.mem_filter.mp hm).2
    by_cases h8 : 8 ≤ (s.data.filter pyIsDigit).length
    · refine ⟨?_, ?_, ?_, ?_⟩
      · simp only [clean_contract_number, if_pos h8, String.length, String.mk]
        simp [List.length_take]
      · simp only [clean_contract_number, if_pos h8, String.mk]
        exact List.all_eq_true.mpr hsub
      · intro h
        exact Option.noConfusion h
      · intro t ht
        cases ht
        simp only [clean_contract_number, if_pos h8]
    · have hlen : (s.data.filter pyIsDigit).length ≤ 8 := by omega
      have htake : (s.data.filter pyIsDigit).take 8 = s.data.filter pyIsDigit :=
        List.take_of_length_le hlen
      refine ⟨?_, ?_, ?_, ?_⟩
      · simp only [clean_contract_number, if_neg h8, String.length, String.mk]
        exact hlen
      · simp only [clean_contract_number, if_neg h8, String.mk]
        refine List.all_eq_true.mpr ?_
        intro c hc
        exact (List.mem_filter.mp hc).2
      · intro h
        exact Option.noConfusion h
      · intro t ht
        cases ht
        simp only [clean_contract_number, if_neg h8, htake]

/-- Claim C3 witness: the amended statement evaluated at the concrete raw
input `"a123456789z"` — the result `"12345678"` is the first 8 digits. -/
theorem clean_contract_number_width_witness :
    (clean_contract_number (some "a123456789z")).length ≤ 8 ∧
    clean_contract_number (some "a123456789z") =
      String.mk ((("a123456789z").data.filter pyIsDigit).take 8) :=
  ⟨(clean_contract_number_width_amended (some "a123456789z")).1,
   (clean_contract_number_width_amended (some "a123456789z")).2.2.2
     "a123456789z" rfl⟩

/-- Claim C4 counterexample: `clean_monthly_fee("1,234,500")` does not
return `1235`.  Python `round` rounds halves to even, and
`1234500 / 1000 = 1234.5` is an exact tie, so the code returns `1234`. -/
theorem clean_monthly_fee_examples_cex :
    clean_monthly_fee (some "1,234,500") ≠ some 1235 := by
  decide

/-- Claim C4 (amended): `clean_monthly_fee("1,234,500")` with the ÷1000
rescale returns `1234` (Python `round` is half-to-even, so the exact tie
`1234.5` rounds down to the even neighbour), and `clean_monthly_fee("abc")`
returns the `np.nan` sentinel (modelled `none`) without raising. -/
theorem clean_monthly_fee_examples :
    clean_monthly_fee (some "1,234,500") = some 1234 ∧
    clean_monthly_fee (some "abc") = none := by
  decide

/-- Claim C10 counterexample: the two contract-ID cleaners differ on the
input `"²"` (U+00B2, SUPERSCRIPT TWO).  Python `str.isdigit` accepts it, so
`clean_contract_number` keeps it, while `re.sub(r"[^0-9]", "", ·)` in
`clean_contract` removes it. -/
theorem cleaners_equiv_cex :
    clean_contract_number (some "²") ≠ clean_contract (some "²") := by
  decide

/-- Claim C10 (amended): the two contract-ID cleaners agree on NaN and on
every input string consisting of ASCII characters only; they differ on
non-ASCII Unicode digit characters, which `str.isdigit` keeps and the
ASCII regex class `[0-9]` removes. -/
theorem cleaners_equiv_amended (x : Option String)
    (h : ∀ s, x = some s → ∀ c ∈ s.data, c.toNat ≤ 127) :
    clean_contract_number x = clean_contract x := by
  match x with
  | none => rfl
  | some s =>
    have hfilter : s.data.filter pyIsDigit = s.data.filter isAsciiDigit := by
      refine List.filter_congr ?_
      intro c hc
      have hascii : c.toNat ≤ 127 := h s rfl c hc
      have h1 : (c.toNat == 178) = false := by
        refine beq_eq_false_iff_ne.mpr ?_
        omega
      have h2 : (c.toNat == 179) = false := by
        refine beq_eq_false_iff_ne.mpr ?_
        omega
      have h3 : (c.toNat == 185) = false := by
        refine beq_eq_false_iff_ne.mpr ?_
        omega
      simp [pyIsDigit, h1, h2, h3]
    simp only [clean_contract_number, clean_contract, hfilter]

/-- Claim C10 witness: the amended equivalence applied at the concrete
ASCII input `"40-123456789"`, where both cleaners return `"40123456"`. -/
theorem cleaners_equiv_witness :
    clean_contract_number (some "40-123456789") = clean_contract (some "40-123456789") ∧
    clean_contract (some "40-123456789") = "40123456" :=
  ⟨cleaners_equiv_amended (some "40-123456789")
     (fun s hs => by cases hs; decide),
   by decide⟩

/-- Claim C7 (confirmed): `parse_date_safe` is total into `NaT`-or-datetime
(all failures degrade to the absent value `NaT`; nothing raises), the three
inputs `"2024-03-01"`, `"2024/03/01"`, `"2024.03.01"` all parse to the same
calendar date 2024-03-01, and `"not-a-date"` yields `NaT`. -/
theorem parse_date_safe_spec :
    (∀ x, parse_date_safe x = PDate.NaT ∨
      ∃ y m d hh mi ss, parse_date_safe x = PDate.dt y m d hh mi ss) ∧
    parse_date_safe (.str "2024-03-01") = PDate.dt 2024 3 1 0 0 0 ∧
    parse_date_safe (.str "2024/03/01") = PDate.dt 2024 3 1 0 0 0 ∧
    parse_date_safe (.str "2024.03.01") = PDate.dt 2024 3 1 0 0 0 ∧
    parse_date_safe (.str "not-a-date") = PDate.NaT := by
  refine ⟨?_, by decide, by decide, by decide, by decide⟩
  intro x
  match h : parse_date_safe x with
  | .NaT => exact Or.inl rfl
  | .dt y m d hh mi ss => exact Or.inr ⟨y, m, d, hh, mi, ss, rfl⟩

/-- Claim C1 (confirmed): `filter_by_role` is a pure function of the table
and the session values (the embedding is a plain function; the Python body
copies and selects, never mutates).  An `ADMIN` receives every row
unchanged; a `BRANCH_ADMIN` with branch code `b` receives, when the branch
column is present, exactly the rows whose branch cell equals `b` (same
columns, and a row is kept iff it is an input row whose branch equals `b`),
and the whole table when the branch column is absent. -/
theorem filter_by_role_role_table (df : Table) (u b : String) :
    filter_by_role df "admin" u b = df ∧
    ("관리지사" ∉ df.cols → filter_by_role df "branch_admin" u b = df) ∧
    ("관리지사" ∈ df.cols →
      (filter_by_role df "branch_admin" u b).cols = df.cols ∧
      ∀ r, r ∈ (filter_by_role df "branch_admin" u b).rows ↔
        (r ∈ df.rows ∧ getCell r "관리지사" = Val.vstr b)) := by
  have hbr : filter_by_role df "branch_admin" u b =
      (if "관리지사" ∈ df.cols then
        filterRows df (fun r => getCell r "관리지사" == Val.vstr b)
      else df) := rfl
  refine ⟨rfl, ?_, ?_⟩
  · intro h
    rw [hbr, if_neg h]
  · intro h
    have hrw : filter_by_role df "branch_admin" u b =
        filterRows df (fun r => getCell r "관리지사" == Val.vstr b) := by
      rw [hbr, if_pos h]
    rw [hrw]
    refine ⟨rfl, ?_⟩
    intro r
    constructor
    · intro hr
      have := List.mem_filter.mp hr
      exact ⟨this.1, beq_iff_eq.mp this.2⟩
    · intro hr
      exact List.mem_filter.mpr ⟨hr.1, beq_iff_eq.mpr hr.2⟩

/-- Claim C1 witness: on the concrete `{"North","South"}` table, the admin
view is the whole table, and the `"North"` row is in the branch-admin view
for branch `"North"` iff it is an input row with branch `"North"` (which it
is). -/
theorem filter_by_role_role_table_witness :
    filter_by_role exTableC1 "admin" "ADMIN" "" = exTableC1 ∧
    ([("관리지사", Val.vstr "North")] ∈
        (filter_by_role exTableC1 "branch_admin" "" "North").rows ↔
      ([("관리지사", Val.vstr "North")] ∈ exTableC1.rows ∧
        getCell [("관리지사", Val.vstr "North")] "관리지사" = Val.vstr "North")) :=
  ⟨(filter_by_role_role_table exTableC1 "ADMIN" "").1,
   ((filter_by_role_role_table exTableC1 "" "North").2.2 (by decide)).2 _⟩

/-- Claim C2 counterexample: on a table lacking the branch column, a
non-wildcard branch selection makes the filter block raise (`KeyError` on
`df_f["관리지사"]`) instead of leaving the table unchanged. -/
theorem query_filter_absent_column_cex :
    df_f_block exTableC2 exCritC2 = Except.error "KeyError: 관리지사" := by
  rfl

/-- Claim C2 (amended): the risk-tier, match-flag and VOC-category criteria
are presence-checked — when their source column is absent they leave the
table unchanged and raise no error — but the branch and manager criteria
are not: a non-wildcard selection applied to a table lacking the column
raises a `KeyError` rather than being a no-op (likewise the fee-range
filter, whose column the pipeline always creates beforehand). -/
theorem query_filter_absent_column_amended (df : Table)
    (selb selm selr selx : List String) (voc : String) :
    ("리스크등급" ∉ df.cols → riskStep df selr = df) ∧
    ("체미매칭" ∉ df.cols → matchStep df selx = df) ∧
    ("VOC유형중" ∉ df.cols → vocStep df voc = df) ∧
    ("관리지사" ∉ df.cols → "전체" ∉ selb →
      branchStep df selb = Except.error "KeyError: 관리지사") ∧
    ("담당자" ∉ df.cols → "전체" ∉ selm →
      managerStep df selm = Except.error "KeyError: 담당자") := by
  refine ⟨?_, ?_, ?_, ?_, ?_⟩
  · intro h
    simp [riskStep, h]
  · intro h
    simp [matchStep, h]
  · intro h
    simp [vocStep, h]
  · intro h1 h2
    unfold branchStep
    rw [if_neg h2, if_neg h1]
  · intro h1 h2
    unfold managerStep
    rw [if_neg h2, if_neg h1]

/-- Claim C2 witness: the amended statement evaluated on the concrete
fee-only table — the three guarded criteria are no-ops there, the branch
and manager criteria raise. -/
theorem query_filter_absent_column_witness :
    riskStep exTableC2 ["HIGH"] = exTableC2 ∧
    matchStep exTableC2 ["X"] = exTableC2 ∧
    vocStep exTableC2 "해지" = exTableC2 ∧
    branchStep exTableC2 ["North"] = Except.error "KeyError: 관리지사" ∧
    managerStep exTableC2 ["Kim"] = Except.error "KeyError: 담당자" :=
  ⟨(query_filter_absent_column_amended exTableC2 ["North"] ["Kim"] ["HIGH"] ["X"] "해지").1
     (by decide),
   (query_filter_absent_column_amended exTableC2 ["North"] ["Kim"] ["HIGH"] ["X"] "해지").2.1
     (by decide),
   (query_filter_absent_column_amended exTableC2 ["North"] ["Kim"] ["HIGH"] ["X"] "해지").2.2.1
     (by decide),
   (query_filter_absent_column_amended exTableC2 ["North"] ["Kim"] ["HIGH"] ["X"] "해지").2.2.2.1
     (by decide) (by decide),
   (query_filter_absent_column_amended exTableC2 ["North"] ["Kim"] ["HIGH"] ["X"] "해지").2.2.2.2
     (by decide) (by decide)⟩

/-- Claim C5 counterexample: on a table whose single row carries a risk
value outside the three tiers, selecting all three tiers yields 0 rows
while no risk criterion yields 1 row — the round trip fails. -/
theorem risk_roundtrip_cex :
    (riskStep exTableC5 ["HIGH", "MEDIUM", "LOW"]).rows.length ≠
      (riskStep exTableC5 []).rows.length := by
  decide

/-- Claim C5 (amended): the all-tiers selection is equivalent to no risk
criterion provided the risk column is absent, or every row's risk value is
one of the three tiers (which the sidebar guarantees for its own options
but the data does not guarantee in general: other or missing values are
dropped by the all-tiers filter and kept by no filter). -/
theorem risk_roundtrip_amended (df : Table)
    (h : "리스크등급" ∉ df.cols ∨ ∀ r ∈ df.rows,
      getCell r "리스크등급" = Val.vstr "HIGH" ∨
      getCell r "리스크등급" = Val.vstr "MEDIUM" ∨
      getCell r "리스크등급" = Val.vstr "LOW") :
    riskStep df ["HIGH", "MEDIUM", "LOW"] = riskStep df [] := by
  have hempty : riskStep df [] = df := rfl
  rw [hempty]
  unfold riskStep
  rw [if_pos (by decide : (["HIGH", "MEDIUM", "LOW"] : List String) ≠ [])]
  rcases h with h | h
  · rw [if_neg h]
  · by_cases hc : "리스크등급" ∈ df.cols
    · rw [if_pos hc]
      have hfix : df.rows.filter
          (fun r => isinSel (getCell r "리스크등급") ["HIGH", "MEDIUM", "LOW"]) = df.rows := by
        rw [List.filter_eq_self]
        intro r hr
        rcases h r hr with h1 | h1 | h1 <;> rw [h1] <;> decide
      unfold filterRows
      rw [hfix]
    · rw [if_neg hc]

/-- Claim C5 witness: the amended equivalence on the concrete one-row
`HIGH` table. -/
theorem risk_roundtrip_witness :
    riskStep exTableC5w ["HIGH", "MEDIUM", "LOW"] = riskStep exTableC5w [] :=
  risk_roundtrip_amended exTableC5w (Or.inr (by decide))

/-- Uppercasing a character yields `'X'` exactly for lowercase or uppercase
x. -/
theorem pyUpperChar_eq_X_iff (c : Char) : pyUpperChar c = 'X' ↔ c = 'x' ∨ c = 'X' := by
  unfold pyUpperChar
  by_cases h : 97 ≤ c.toNat ∧ c.toNat ≤ 122
  · rw [if_pos h]
    have key : ∀ n : Nat, 97 ≤ n → n ≤ 122 → (Char.ofNat (n - 32) = 'X' ↔ n = 120) := by
      intro n h1 h2
      interval_cases n <;> decide
    have hx : c = 'x' ↔ c.toNat = 120 := by
      constructor
      · intro hc
        subst hc
        decide
      · intro hc
        have hofn := Char.ofNat_toNat c
        rw [hc] at hofn
        exact hofn.symm.trans (by decide)
    constructor
    · intro hofn
      exact Or.inl (hx.mpr ((key c.toNat h.1 h.2).mp hofn))
    · intro hor
      rcases hor with hc | hc
      · exact (key c.toNat h.1 h.2).mpr (hx.mp hc)
      · exfalso
        rw [hc] at h
        exact absurd h (by decide)
  · rw [if_neg h]
    constructor
    · intro hc
      exact Or.inr hc
    · intro hor
      rcases hor with hc | hc
      · exfalso
        apply h
        rw [hc]
        decide
      · exact hc

/-- Uppercasing a string yields `"X"` exactly for `"x"` and `"X"`. -/
theorem pyUpper_eq_X_iff (s : String) : pyUpper s = "X" ↔ s = "x" ∨ s = "X" := by
  obtain ⟨l⟩ := s
  constructor
  · intro h
    have hdata : l.map pyUpperChar = ['X'] := congrArg String.data h
    cases l with
    | nil => simp at hdata
    | cons a t =>
      cases t with
      | nil =>
        have hc : pyUpperChar a = 'X' := by simpa using hdata
        rcases (pyUpperChar_eq_X_iff a).mp hc with h1 | h1 <;> rw [h1]
        · exact Or.inl rfl
        · exact Or.inr rfl
      | cons b t2 => simp at hdata
  · rintro (h | h) <;> rw [h] <;> decide

/-- The code's unmatched test `str(x).upper() == "X"` holds exactly for the
cell values `"X"` and `"x"`, given that the cell is not an integer (the
frame is loaded with `dtype=str`). -/
theorem upper_str_eq_X_iff (v : Val) (h : notIntCell v = true) :
    pyUpper (pyStrVal v) = "X" ↔ (v = Val.vstr "X" ∨ v = Val.vstr "x") := by
  cases v with
  | vnan => decide
  | vstr s =>
    simp only [pyStrVal]
    rw [pyUpper_eq_X_iff]
    constructor
    · rintro (h1 | h1)
      · exact Or.inr (by rw [h1])
      · exact Or.inl (by rw [h1])
    · rintro (h1 | h1)
      · exact Or.inr (Val.vstr.inj h1)
      · exact Or.inl (Val.vstr.inj h1)
  | vint n => simp [notIntCell] at h

/-- Claim C6 counterexample: a `매칭` value of lowercase `"x"` — which is
not the string `"X"` — is still flagged `"X"` (UNMATCHED), because the code
uppercases before comparing. -/
theorem match_flag_cex :
    getCell ((deriveMatch exTableC6).rows.headD []) "매칭여부" = Val.vstr "X" ∧
    getCell (exTableC6.rows.headD []) "매칭" ≠ Val.vstr "X" := by
  decide

/-- Claim C6 (amended): for a loaded table (string-or-NaN cells), the
derived flag of a row is `"X"` (UNMATCHED) exactly when the source `매칭`
value is the string `"X"` or `"x"` — the comparison uppercases first — and
`"O"` (MATCHED) for every other value; when the column is absent every row
is flagged `"O"`. -/
theorem match_flag_amended (df : Table)
    (hstr : ∀ r ∈ df.rows, notIntCell (getCell r "매칭") = true) :
    ("매칭" ∈ df.cols →
      (deriveMatch df).rows = df.rows.map (fun r =>
        setCell r "매칭여부" (Val.vstr
          (if getCell r "매칭" = Val.vstr "X" ∨ getCell r "매칭" = Val.vstr "x"
           then "X" else "O")))) ∧
    ("매칭" ∉ df.cols →
      (deriveMatch df).rows = df.rows.map (fun r => setCell r "매칭여부" (Val.vstr "O"))) := by
  constructor
  · intro hc
    unfold deriveMatch
    rw [if_pos hc]
    refine List.map_congr_left ?_
    intro r hr
    exact congrArg (fun s => setCell r "매칭여부" (Val.vstr s))
      (if_congr (upper_str_eq_X_iff (getCell r "매칭") (hstr r hr)) rfl rfl)
  · intro hc
    unfold deriveMatch
    rw [if_neg hc]

/-- Claim C6 witness: the amended characterization on the concrete table
with a matched row, a lowercase-x row and a NaN row. -/
theorem match_flag_witness :
    (deriveMatch exTableC6w).rows = exTableC6w.rows.map (fun r =>
      setCell r "매칭여부" (Val.vstr
        (if getCell r "매칭" = Val.vstr "X" ∨ getCell r "매칭" = Val.vstr "x"
         then "X" else "O"))) :=
  (match_flag_amended exTableC6w (by decide)).1 (by decide)

/-- Claim C8 (confirmed): the registration handler rejects a submission
whose contract is the placeholder `"선택하세요"` or whose content is empty
after trimming, producing an error and no new log table (so the store is
left unchanged — `save_logs` is only reached in the success branch);
otherwise it produces exactly the prior rows followed by one new row built
from the submission. -/
theorem log_append_spec (logs : List Row) (sel activity note user now : String) :
    ((sel = "선택하세요" ∨ pyStrip activity = "") →
      ∃ e, register_activity logs sel activity note user now = Except.error e) ∧
    (sel ≠ "선택하세요" → pyStrip activity ≠ "" →
      register_activity logs sel activity note user now =
        Except.ok (logs ++
          [[("계약번호", Val.vstr sel), ("활동내용", Val.vstr activity),
            ("등록자", Val.vstr user), ("등록일시", Val.vstr now),
            ("비고", Val.vstr note)]])) := by
  constructor
  · intro h
    by_cases hs : sel = "선택하세요"
    · refine ⟨"계약번호를 선택해주세요.", ?_⟩
      unfold register_activity
      rw [if_pos hs]
    · have ha : pyStrip activity = "" := by
        rcases h with h | h
        · exact absurd h hs
        · exact h
      refine ⟨"활동 내용을 입력해주세요.", ?_⟩
      unfold register_activity
      rw [if_neg hs, if_pos ha]
  · intro h1 h2
    unfold register_activity
    rw [if_neg h1, if_neg h2]

/-- Claim C8 witness: a valid submission on an empty store appends exactly
its one row; the placeholder contract is rejected with an error. -/
theorem log_append_witness :
    register_activity [] "12345678" "called customer" "" "ADMIN" "2024-03-01 10:00:00" =
      Except.ok
        [[("계약번호", Val.vstr "12345678"), ("활동내용", Val.vstr "called customer"),
          ("등록자", Val.vstr "ADMIN"), ("등록일시", Val.vstr "2024-03-01 10:00:00"),
          ("비고", Val.vstr "")]] ∧
    (∃ e, register_activity [] "선택하세요" "x" "" "ADMIN" "" = Except.error e) :=
  ⟨(log_append_spec [] "12345678" "called customer" "" "ADMIN" "2024-03-01 10:00:00").2
     (by decide) (by decide),
   (log_append_spec [] "선택하세요" "x" "" "ADMIN" "").1 (Or.inl rfl)⟩

/-- The emit order of `top_fail` is asymmetric. -/
theorem c9lt_asymm {x y : String × Nat} (h : c9lt x y = true) : c9lt y x = false := by
  unfold c9lt at h ⊢
  rcases Bool.or_eq_true_iff.mp h with h1 | h1
  · have hlt : y.2 < x.2 := of_decide_eq_true h1
    have : ¬ (x.2 < y.2) := Nat.lt_asymm hlt
    have : ¬ (y.2 = x.2) := fun he => absurd hlt (by omega)
    simp [Nat.lt_asymm hlt, this]
  · have he : x.2 = y.2 := of_decide_eq_true (Bool.and_eq_true_iff.mp h1).1
    have hlt : y.1.data < x.1.data := of_decide_eq_true (Bool.and_eq_true_iff.mp h1).2
    have h2 : ¬ (x.1.data < y.1.data) := lt_asymm hlt
    have h3 : ¬ (x.2 < y.2) := by omega
    simp [h2, h3, he]

/-- Non-precedence in the emit order of `top_fail` is transitive. -/
theorem c9lt_false_trans {a b c : String × Nat}
    (h1 : c9lt b a = false) (h2 : c9lt c b = false) : c9lt c a = false := by
  unfold c9lt at h1 h2 ⊢
  simp only [Bool.or_eq_false_iff, Bool.and_eq_false_iff, decide_eq_false_iff_not,
    decide_eq_true_eq] at h1 h2 ⊢
  obtain ⟨h1n, h1t⟩ := h1
  obtain ⟨h2n, h2t⟩ := h2
  refine ⟨by omega, ?_⟩
  by_cases he : b.2 = a.2
  · rcases h1t with h1t | h1t
    · exact absurd he h1t
    · by_cases he2 : c.2 = b.2
      · rcases h2t with h2t | h2t
        · exact absurd he2 h2t
        · exact Or.inr (fun hlt => h1t (lt_of_lt_of_le hlt (le_of_not_lt h2t)))
      · exact Or.inl (fun hca => he2 (by omega))
  · exact Or.inl (fun hca => he (by omega))

/-- Membership after a sorted insertion. -/
theorem insertSorted_mem {z x : String × Nat} :
    ∀ {l}, z ∈ insertSorted x l → z = x ∨ z ∈ l := by
  intro l
  induction l with
  | nil =>
    intro h
    simpa [insertSorted] using h
  | cons y ys ih =>
    intro h
    unfold insertSorted at h
    by_cases hc : c9lt x y = true
    · rw [if_pos hc] at h
      rcases List.mem_cons.mp h with h | h
      · exact Or.inl h
      · exact Or.inr h
    · rw [if_neg hc] at h
      rcases List.mem_cons.mp h with h | h
      · exact Or.inr (List.mem_cons.mpr (Or.inl h))
      · rcases ih h with h | h
        · exact Or.inl h
        · exact Or.inr (List.mem_cons.mpr (Or.inr h))

/-- Sorted insertion preserves sortedness (with respect to
non-precedence). -/
theorem insertSorted_pairwise {x : String × Nat} :
    ∀ {l}, l.Pairwise (fun a b => c9lt b a = false) →
      (insertSorted x l).Pairwise (fun a b => c9lt b a = false) := by
  intro l
  induction l with
  | nil =>
    intro _
    simp [insertSorted]
  | cons y ys ih =>
    intro h
    rw [List.pairwise_cons] at h
    obtain ⟨hy, hys⟩ := h
    unfold insertSorted
    by_cases hc : c9lt x y = true
    · rw [if_pos hc]
      rw [List.pairwise_cons]
      refine ⟨?_, List.pairwise_cons.mpr ⟨hy, hys⟩⟩
      intro z hz
      rcases List.mem_cons.mp hz with hz | hz
      · rw [hz]
        exact c9lt_asymm hc
      · exact c9lt_false_trans (c9lt_asymm hc) (hy z hz)
    · rw [if_neg hc]
      rw [List.pairwise_cons]
      refine ⟨?_, ih hys⟩
      intro z hz
      rcases insertSorted_mem hz with hz | hz
      · rw [hz]
        exact Bool.eq_false_iff.mpr hc
      · exact hy z hz
/-- The insertion sort by `c9lt` sorts. -/
theorem isortDesc_pairwise :
    ∀ l : List (String × Nat), (isortDesc l).Pairwise (fun a b => c9lt b a = false) := by
  intro l
  induction l with
  | nil => simp [isortDesc]
  | cons x xs ih => exact insertSorted_pairwise ih

/-- Unfolded meaning of non-precedence in the `top_fail` order. -/
theorem c9lt_false_iff (a b : String × Nat) :
    (c9lt b a = false) ↔ (b.2 ≤ a.2 ∧ (b.2 = a.2 → ¬ a.1.data < b.1.data)) := by
  unfold c9lt
  simp only [Bool.or_eq_false_iff, Bool.and_eq_false_iff, decide_eq_false_iff_not,
    decide_eq_true_eq]
  constructor
  · rintro ⟨h1, h2⟩
    refine ⟨by omega, ?_⟩
    intro he hlt
    rcases h2 with h2 | h2
    · exact h2 he
    · exact h2 hlt
  · rintro ⟨h1, h2⟩
    refine ⟨by omega, ?_⟩
    by_cases he : b.2 = a.2
    · exact Or.inr (h2 he)
    · exact Or.inl he

/-- Claim C9 counterexample: with managers `"Kim"` and `"Lee"` tied at one
unmatched contract each, the code emits `[("Lee", 1), ("Kim", 1)]` — ties
in descending manager-name order (pandas reverses the ascending argsort of
the name-ascending groupby result) — not the name-ascending order
`[("Kim", 1), ("Lee", 1)]` the claim requires. -/
theorem top_fail_tiebreak_cex :
    top_fail exTableC9 = [("Lee", 1), ("Kim", 1)] ∧
    top_fail exTableC9 ≠ [("Kim", 1), ("Lee", 1)] := by
  constructor
  · rfl
  · decide

/-- Claim C9 (amended): `top_fail` returns at most 20 entries, sorted
descending by unique-contract count; ties are emitted in descending (not
ascending) manager-name order. -/
theorem top_fail_sorted_amended (df : Table) :
    (top_fail df).length ≤ 20 ∧
    (top_fail df).Pairwise (fun a b =>
      b.2 ≤ a.2 ∧ (b.2 = a.2 → ¬ a.1.data < b.1.data)) := by
  constructor
  · exact List.length_take_le _ _
  · exact List.Pairwise.imp (fun h => (c9lt_false_iff _ _).mp h)
      (List.Pairwise.sublist (List.take_sublist 20 _) (isortDesc_pairwise _))

/-- Claim C9 witness: the amended bound and sortedness evaluated on the
concrete two-manager table. -/
theorem top_fail_sorted_witness :
    (top_fail exTableC9).length ≤ 20 ∧
    (top_fail exTableC9).Pairwise (fun a b =>
      b.2 ≤ a.2 ∧ (b.2 = a.2 → ¬ a.1.data < b.1.data)) :=
  top_fail_sorted_amended exTableC9
